import Mathlib

/-!
Shallow embedding of `graphviz/backend/rendering.py`: the command builder
`command` and the five rendering orchestrator operations `render`, `pipe`,
`pipe_string`, `pipe_lines`, `pipe_lines_string`.

The capability registry (`ENGINES`, `FORMATS`, `RENDERERS`, `FORMATTERS`,
imported by the source from `backend.common`) is external configuration data;
it is modelled as an explicit `Registry` parameter of four string lists.
The process runner (`execute.run_check`) is likewise external; it is modelled
as a function parameter from a `RunCall` (argv, capture flag, working
directory, quiet flag, stdin payload) to either an error or a result.
Each orchestrator operation returns, alongside its `Except` outcome, the
list of runner calls it made, so that "no process was spawned" is the
trace being empty.

`os.path.split` and `os.path.join` are embedded with POSIX semantics
(`posixSplit`, `posixJoin`).
-/

set_option autoImplicit false

namespace GraphvizRendering

/-- Capability registry: the four sets of known identifiers that the source
imports as `ENGINES`, `FORMATS`, `RENDERERS`, `FORMATTERS` from
`backend.common` (external configuration data, modelled as lists). -/
structure Registry where
  engines : List String
  formats : List String
  renderers : List String
  formatters : List String
  deriving DecidableEq

/-- Error conditions raised by the source: `RequiredArgumentError`,
`ValueError`, `ExecutableNotFound`, and `subprocess.CalledProcessError`. -/
inductive Err where
  | requiredArgument (msg : String)
  | valueError (msg : String)
  | executableNotFound (msg : String)
  | calledProcess (returncode : Int) (stderr : List Nat)
  deriving DecidableEq

/-- Stdin payload handed to the process runner: nothing (file mode), raw
bytes, a string with an encoding, encoded byte lines, or string lines with
an encoding. Bytes are modelled as `List Nat`. -/
inductive Payload where
  | none
  | bytes (data : List Nat)
  | str (input : String) (encoding : String)
  | byteLines (ls : List (List Nat))
  | strLines (ls : List String) (encoding : String)
  deriving DecidableEq

/-- One call to the external process runner `execute.run_check`. -/
structure RunCall where
  cmd : List String
  capture_output : Bool
  cwd : Option String
  quiet : Bool
  input : Payload
  deriving DecidableEq

/-- Result of a successful run: captured stdout, as raw bytes and as the
decoded string (the source reads the view matching the call's input mode). -/
structure RunResult where
  stdoutBytes : List Nat
  stdoutStr : String
  deriving DecidableEq

/-- The external process runner, abstracted as a function. -/
def Runner : Type := RunCall → Except Err RunResult

/-- Layout binary constant: `DOT_BINARY = pathlib.Path('dot')`. -/
def DOT_BINARY : String := "dot"

/-- Helper for `renderer is not None and renderer not in RENDERERS` (and the
analogous formatter check): `true` iff the optional value is absent or is a
member of the pool. -/
def knownOpt (pool : List String) : Option String → Bool
  | Option.none => true
  | Option.some v => pool.contains v

/-- Embedding of `command(engine, format_, *, renderer=None, formatter=None)`:
validates against the registry and builds
`[DOT_BINARY, f'-K{engine}', f'-T{output_format_flag}']` where
`output_format_flag` colon-joins the non-null elements of
`(format_, renderer, formatter)`. -/
def command (R : Registry) (engine : String) (format_ : String)
    (renderer : Option String) (formatter : Option String) :
    Except Err (List String) :=
  if formatter.isSome && renderer.isNone then
    Except.error (Err.requiredArgument "formatter given without renderer")
  else if !(R.engines.contains engine) then
    Except.error (Err.valueError ("unknown engine: " ++ engine))
  else if !(R.formats.contains format_) then
    Except.error (Err.valueError ("unknown format: " ++ format_))
  else if !(knownOpt R.renderers renderer) then
    Except.error (Err.valueError ("unknown renderer: " ++
      (renderer.getD "")))
  else if !(knownOpt R.formatters formatter) then
    Except.error (Err.valueError ("unknown formatter: " ++
      (formatter.getD "")))
  else
    let output_format := [Option.some format_, renderer, formatter].filterMap id
    let output_format_flag := String.intercalate ":" output_format
    Except.ok [DOT_BINARY, "-K" ++ engine, "-T" ++ output_format_flag]

/-- Index just past the last '/' in the character list: `p.rfind('/') + 1`
of `posixpath.split` (0 when there is no slash). -/
def lastSlashIdx (cs : List Char) : Nat :=
  (cs.enum.filter (fun p => p.snd == '/')).foldl (fun _ p => p.fst + 1) 0

/-- Strip trailing slashes: `head.rstrip('/')`. -/
def rstripSlash (cs : List Char) : List Char :=
  (cs.reverse.dropWhile (fun c => c == '/')).reverse

/-- Embedding of `posixpath.split` (what `os.path.split` does on POSIX):
split at the last slash; the head keeps its trailing slashes only when it
consists solely of slashes. -/
def posixSplit (p : String) : String × String :=
  let cs := p.data
  let i := lastSlashIdx cs
  let head := cs.take i
  let tail := cs.drop i
  let head2 := if head.isEmpty || head.all (fun c => c == '/') then head
               else rstripSlash head
  (String.mk head2, String.mk tail)

/-- Check whether the first character is a slash (`b.startswith('/')`). -/
def startsWithSlash (s : String) : Bool :=
  match s.data with
  | [] => false
  | c :: _ => c == '/'

/-- Check whether the last character is a slash (`path.endswith('/')`). -/
def endsWithSlash (s : String) : Bool :=
  match s.data.getLast? with
  | Option.some c => c == '/'
  | Option.none => false

/-- Embedding of `posixpath.join` for two components (what `os.path.join`
does on POSIX). -/
def posixJoin (a : String) (b : String) : String :=
  if startsWithSlash b then b
  else if a == "" || endsWithSlash a then a ++ b
  else a ++ "/" ++ b

/-- Embedding of `render(engine, format, filepath, renderer, formatter,
quiet)`: splits `filepath`, builds the command, appends `['-O', filename]`,
computes the dot-joined suffix from `(formatter, renderer, format)`, runs
the command from the input's directory, returns the rendered path. Returns
the outcome together with the list of runner calls made. -/
def render (runner : Runner) (R : Registry) (engine : String) (format : String)
    (filepath : String) (renderer : Option String) (formatter : Option String)
    (quiet : Bool) : Except Err String × List RunCall :=
  let dirname := (posixSplit filepath).fst
  let filename := (posixSplit filepath).snd
  match command R engine format renderer formatter with
  | Except.error e => (Except.error e, [])
  | Except.ok cmd0 =>
    let cmd := cmd0 ++ ["-O", filename]
    let suffix := String.intercalate "."
      ([formatter, renderer, Option.some format].filterMap id)
    let rendered := filename ++ "." ++ suffix
    let cwd := if dirname ≠ "" then Option.some dirname else Option.none
    let rendered2 := if dirname ≠ "" then posixJoin dirname rendered else rendered
    let call : RunCall := ⟨cmd, true, cwd, quiet, Payload.none⟩
    match runner call with
    | Except.error e => (Except.error e, [call])
    | Except.ok _ => (Except.ok rendered2, [call])

/-- Embedding of `pipe(engine, format, data, renderer, formatter, quiet)`:
builds the command, runs it with `data` as stdin bytes from the current
directory, returns captured stdout bytes, together with the runner calls. -/
def pipe (runner : Runner) (R : Registry) (engine : String) (format : String)
    (data : List Nat) (renderer : Option String) (formatter : Option String)
    (quiet : Bool) : Except Err (List Nat) × List RunCall :=
  match command R engine format renderer formatter with
  | Except.error e => (Except.error e, [])
  | Except.ok cmd =>
    let call : RunCall := ⟨cmd, true, Option.none, quiet, Payload.bytes data⟩
    match runner call with
    | Except.error e => (Except.error e, [call])
    | Except.ok proc => (Except.ok proc.stdoutBytes, [call])

/-- Embedding of `pipe_string(engine, format, input_string, *, encoding,
renderer, formatter, quiet)`: like `pipe` but the runner is instructed to
encode stdin and decode stdout with `encoding`; returns decoded stdout. -/
def pipe_string (runner : Runner) (R : Registry) (engine : String)
    (format : String) (input_string : String) (encoding : String)
    (renderer : Option String) (formatter : Option String)
    (quiet : Bool) : Except Err String × List RunCall :=
  match command R engine format renderer formatter with
  | Except.error e => (Except.error e, [])
  | Except.ok cmd =>
    let call : RunCall := ⟨cmd, true, Option.none, quiet,
      Payload.str input_string encoding⟩
    match runner call with
    | Except.error e => (Except.error e, [call])
    | Except.ok proc => (Except.ok proc.stdoutStr, [call])

/-- Embedding of `pipe_lines(engine, format, input_lines, *, input_encoding,
renderer, formatter, quiet)`: each input line is encoded with
`input_encoding` (the abstract `encode` parameter models `str.encode`);
returns raw stdout bytes. The line sequence is modelled as a list; it is
only placed in the payload after validation succeeds, mirroring that the
source's generator expression is built after `command` returns and is
consumed only by the runner. -/
def pipe_lines (runner : Runner) (encode : String → String → List Nat)
    (R : Registry) (engine : String) (format : String)
    (input_lines : List String) (input_encoding : String)
    (renderer : Option String) (formatter : Option String)
    (quiet : Bool) : Except Err (List Nat) × List RunCall :=
  match command R engine format renderer formatter with
  | Except.error e => (Except.error e, [])
  | Except.ok cmd =>
    let call : RunCall := ⟨cmd, true, Option.none, quiet,
      Payload.byteLines (input_lines.map (encode input_encoding))⟩
    match runner call with
    | Except.error e => (Except.error e, [call])
    | Except.ok proc => (Except.ok proc.stdoutBytes, [call])

/-- Embedding of `pipe_lines_string(engine, format, input_lines, *, encoding,
renderer, formatter, quiet)`: the lines and the single `encoding` are handed
to the runner, which encodes stdin and decodes stdout; returns decoded
stdout. -/
def pipe_lines_string (runner : Runner) (R : Registry) (engine : String)
    (format : String) (input_lines : List String) (encoding : String)
    (renderer : Option String) (formatter : Option String)
    (quiet : Bool) : Except Err String × List RunCall :=
  match command R engine format renderer formatter with
  | Except.error e => (Except.error e, [])
  | Except.ok cmd =>
    let call : RunCall := ⟨cmd, true, Option.none, quiet,
      Payload.strLines input_lines encoding⟩
    match runner call with
    | Except.error e => (Except.error e, [call])
    | Except.ok proc => (Except.ok proc.stdoutStr, [call])

/-- Concrete registry used for witnesses, consistent with the spec's examples
("dot", "svg", "cairo", ...). -/
def R0 : Registry := ⟨["dot", "neato"], ["svg", "png"], ["cairo"], ["core", "cairo"]⟩

/-- Runner that always succeeds with empty output, used for witnesses. -/
def okRunner : Runner := fun _ => Except.ok ⟨[], ""⟩

/-- Classifier for the unknown-capability condition: the source raises it as
`ValueError`. -/
def isUnknownCapability {α : Type} : Except Err α → Bool
  | Except.error (Err.valueError _) => true
  | _ => false

/-- Strip the quiet flag from a recorded runner call, for comparing the
data handed to the runner independently of diagnostic echoing. -/
def RunCall.eraseQuiet (c : RunCall) : RunCall :=
  ⟨c.cmd, c.capture_output, c.cwd, false, c.input⟩

/-- Shared helper: on fully valid arguments, `command` succeeds with the
literal invocation built from the colon-joined non-null elements of
`(format_, renderer, formatter)`. -/
theorem command_ok (R : Registry) (e f : String) (rd ft : Option String)
    (h1 : (ft.isSome && rd.isNone) = false)
    (h2 : R.engines.contains e = true) (h3 : R.formats.contains f = true)
    (h4 : knownOpt R.renderers rd = true) (h5 : knownOpt R.formatters ft = true) :
    command R e f rd ft =
      Except.ok [DOT_BINARY, "-K" ++ e,
        "-T" ++ String.intercalate ":" ([Option.some f, rd, ft].filterMap id)] := by
  have h2m : e ∈ R.engines := by simpa using h2
  have h3m : f ∈ R.formats := by simpa using h3
  simp [command, h1, h2m, h3m, h4, h5]






/-- Claim C3: for every engine and format (known or not), `command` fails
with `RequiredArgumentError 'formatter given without renderer'` whenever
formatter is non-null and renderer is null. -/
theorem C3_formatter_without_renderer (R : Registry) (e f ft : String) :
    command R e f Option.none (Option.some ft) =
      Except.error (Err.requiredArgument "formatter given without renderer") := rfl

/-- Claim C4: for every valid (engine, format) pair with renderer and
formatter both null, `command` returns exactly
`[DOT_BINARY, "-K" ++ engine, "-T" ++ format]`; the head is the fixed
constant `DOT_BINARY`, not derived from the inputs. -/
theorem C4_plain_invocation (R : Registry) (e f : String)
    (he : R.engines.contains e = true) (hf : R.formats.contains f = true) :
    command R e f Option.none Option.none =
      Except.ok [DOT_BINARY, "-K" ++ e, "-T" ++ f] := by
  simpa using command_ok R e f Option.none Option.none rfl he hf rfl rfl

/-- Witness for C4 at registry `R0`, engine "dot", format "svg". -/
theorem C4_plain_invocation_witness :
    R0.engines.contains "dot" = true ∧ R0.formats.contains "svg" = true ∧
    command R0 "dot" "svg" Option.none Option.none =
      Except.ok [DOT_BINARY, "-Kdot", "-Tsvg"] :=
  ⟨rfl, rfl, C4_plain_invocation R0 "dot" "svg" rfl rfl⟩

/-- Claim C5: for every valid (engine, format, renderer, formatter)
combination, the `-T` flag value is `format ++ ":" ++ renderer ++ ":" ++
formatter` when formatter is present, and `format ++ ":" ++ renderer` when
renderer is present but formatter is null. -/
theorem C5_flag_value (R : Registry) (e f r : String) (ft : Option String)
    (he : R.engines.contains e = true) (hf : R.formats.contains f = true)
    (hr : R.renderers.contains r = true)
    (hft : knownOpt R.formatters ft = true) :
    command R e f (Option.some r) ft =
      Except.ok [DOT_BINARY, "-K" ++ e,
        match ft with
        | Option.some g => "-T" ++ (f ++ ":" ++ r ++ ":" ++ g)
        | Option.none => "-T" ++ (f ++ ":" ++ r)] := by
  cases ft with
  | none =>
    exact command_ok R e f (Option.some r) Option.none rfl he hf
      (by simpa [knownOpt] using hr) rfl
  | some g =>
    exact command_ok R e f (Option.some r) (Option.some g) rfl he hf
      (by simpa [knownOpt] using hr) hft

/-- Witness for C5 at registry `R0` with renderer "cairo" and formatter
"core". -/
theorem C5_flag_value_witness :
    R0.engines.contains "dot" = true ∧ R0.formats.contains "svg" = true ∧
    R0.renderers.contains "cairo" = true ∧
    knownOpt R0.formatters (Option.some "core") = true ∧
    command R0 "dot" "svg" (Option.some "cairo") (Option.some "core") =
      Except.ok [DOT_BINARY, "-Kdot", "-Tsvg:cairo:core"] :=
  ⟨rfl, rfl, rfl, rfl,
    C5_flag_value R0 "dot" "svg" "cairo" (Option.some "core") rfl rfl rfl rfl⟩

/-- Shared helper: inversion of a successful `command` call, recovering the
exact invocation shape. -/
theorem command_ok_shape (R : Registry) (e f : String) (rd ft : Option String)
    (cmd : List String) (hc : command R e f rd ft = Except.ok cmd) :
    cmd = [DOT_BINARY, "-K" ++ e,
      "-T" ++ String.intercalate ":" ([Option.some f, rd, ft].filterMap id)] := by
  unfold command at hc
  repeat' split at hc
  all_goals first
    | exact Except.noConfusion hc
    | exact (Except.ok.inj hc).symm

/-- Shared helper: inversion of a successful `render` call, recovering the
returned output path, which depends only on the inputs (never on the
runner's captured output). -/
theorem render_ok_path (runner : Runner) (R : Registry) (e f : String)
    (fp : String) (rd ft : Option String) (q : Bool) (p : String)
    (hr : (render runner R e f fp rd ft q).fst = Except.ok p) :
    p = (if (posixSplit fp).fst ≠ "" then
           posixJoin (posixSplit fp).fst ((posixSplit fp).snd ++ "." ++
             String.intercalate "." ([ft, rd, Option.some f].filterMap id))
         else (posixSplit fp).snd ++ "." ++
           String.intercalate "." ([ft, rd, Option.some f].filterMap id)) := by
  cases hc : command R e f rd ft with
  | error err => simp [render, hc] at hr
  | ok cmd0 =>
    simp only [render, hc] at hr
    split at hr
    · exact Except.noConfusion hr
    · exact (Except.ok.inj hr).symm

/-- Claim C1 counterexample: for format "svg", renderer "cairo", formatter
"core", the `-T` flag payload is the colon-join of `["svg", "cairo",
"core"]` while the rendered file's extension is the dot-join of `["core",
"cairo", "svg"]`: the element orders differ, refuting "identical element
ordering". -/
theorem C1_counterexample :
    command R0 "dot" "svg" (Option.some "cairo") (Option.some "core") =
      Except.ok [DOT_BINARY, "-Kdot",
        "-T" ++ String.intercalate ":" ["svg", "cairo", "core"]] ∧
    (render okRunner R0 "dot" "svg" "g" (Option.some "cairo") (Option.some "core")
        false).fst =
      Except.ok ("g" ++ "." ++ String.intercalate "." ["core", "cairo", "svg"]) ∧
    ["svg", "cairo", "core"] ≠ ["core", "cairo", "svg"] :=
  ⟨rfl, rfl, by decide⟩

/-- Claim C1 (amended): the two joins use identical only-non-null filtering
but reversed element orders: the `-T` flag colon-joins the non-null elements
of (format, renderer, formatter) while the filename suffix dot-joins the
reverse of that list, i.e. the non-null elements of (formatter, renderer,
format). -/
theorem C1_joined_elements (R : Registry) (e f : String) (rd ft : Option String)
    (runner : Runner) (fp : String) (q : Bool) (cmd : List String) (p : String)
    (hc : command R e f rd ft = Except.ok cmd)
    (hr : (render runner R e f fp rd ft q).fst = Except.ok p) :
    cmd = [DOT_BINARY, "-K" ++ e,
      "-T" ++ String.intercalate ":" ([Option.some f, rd, ft].filterMap id)] ∧
    p = (if (posixSplit fp).fst ≠ "" then
           posixJoin (posixSplit fp).fst ((posixSplit fp).snd ++ "." ++
             String.intercalate "." (([Option.some f, rd, ft].filterMap id).reverse))
         else (posixSplit fp).snd ++ "." ++
           String.intercalate "." (([Option.some f, rd, ft].filterMap id).reverse)) := by
  have hrev : [ft, rd, Option.some f].filterMap id =
      ([Option.some f, rd, ft].filterMap id).reverse := by
    cases rd <;> cases ft <;> rfl
  refine ⟨command_ok_shape R e f rd ft cmd hc, ?_⟩
  rw [← hrev]
  exact render_ok_path runner R e f fp rd ft q p hr

/-- Witness for the amended C1 at format "svg", renderer "cairo", formatter
"core": flag elements (svg, cairo, core), suffix elements reversed. -/
theorem C1_joined_elements_witness :
    command R0 "dot" "svg" (Option.some "cairo") (Option.some "core") =
      Except.ok ["dot", "-Kdot", "-Tsvg:cairo:core"] ∧
    (render okRunner R0 "dot" "svg" "g" (Option.some "cairo") (Option.some "core")
        false).fst = Except.ok "g.core.cairo.svg" ∧
    (["dot", "-Kdot", "-Tsvg:cairo:core"] : List String) =
      [DOT_BINARY, "-K" ++ "dot", "-T" ++ String.intercalate ":"
        ([Option.some "svg", Option.some "cairo", Option.some "core"].filterMap id)] ∧
    "g.core.cairo.svg" =
      (if (posixSplit "g").fst ≠ "" then
         posixJoin (posixSplit "g").fst ((posixSplit "g").snd ++ "." ++
           String.intercalate "." (([Option.some "svg", Option.some "cairo",
             Option.some "core"].filterMap id).reverse))
       else (posixSplit "g").snd ++ "." ++
         String.intercalate "." (([Option.some "svg", Option.some "cairo",
           Option.some "core"].filterMap id).reverse)) :=
  ⟨rfl, rfl,
    (C1_joined_elements R0 "dot" "svg" (Option.some "cairo") (Option.some "core")
      okRunner "g" false ["dot", "-Kdot", "-Tsvg:cairo:core"] "g.core.cairo.svg"
      rfl rfl).1,
    (C1_joined_elements R0 "dot" "svg" (Option.some "cairo") (Option.some "core")
      okRunner "g" false ["dot", "-Kdot", "-Tsvg:cairo:core"] "g.core.cairo.svg"
      rfl rfl).2⟩

/-- Claim C2 counterexample: with an unknown engine "bogus" and a formatter
supplied without a renderer, `command` raises `RequiredArgumentError`
(the argument-validity condition), not the unknown-capability `ValueError`
the claim requires in this case. -/
theorem C2_counterexample :
    command R0 "bogus" "svg" Option.none (Option.some "core") =
      Except.error (Err.requiredArgument "formatter given without renderer") ∧
    isUnknownCapability
      (command R0 "bogus" "svg" Option.none (Option.some "core")) = false :=
  ⟨rfl, rfl⟩

/-- Claim C2 (amended): provided formatter-without-renderer does not hold
(that check takes precedence), any unknown engine, format, renderer or
formatter makes `command` fail with an unknown-capability `ValueError`
naming an offending value. -/
theorem C2_unknown_capability (R : Registry) (e f : String) (rd ft : Option String)
    (hnot : (ft.isSome && rd.isNone) = false)
    (hbad : R.engines.contains e = false ∨ R.formats.contains f = false ∨
      (∃ r, rd = Option.some r ∧ R.renderers.contains r = false) ∨
      (∃ g, ft = Option.some g ∧ R.formatters.contains g = false)) :
    isUnknownCapability (command R e f rd ft) = true ∧
    (command R e f rd ft = Except.error (Err.valueError ("unknown engine: " ++ e)) ∨
     command R e f rd ft = Except.error (Err.valueError ("unknown format: " ++ f)) ∨
     (∃ r, rd = Option.some r ∧
       command R e f rd ft = Except.error (Err.valueError ("unknown renderer: " ++ r))) ∨
     (∃ g, ft = Option.some g ∧
       command R e f rd ft = Except.error (Err.valueError ("unknown formatter: " ++ g)))) := by
  cases he : R.engines.contains e with
  | false =>
    have hem : e ∉ R.engines := by simpa using he
    have hcmd : command R e f rd ft =
        Except.error (Err.valueError ("unknown engine: " ++ e)) := by
      simp [command, hnot, hem]
    exact ⟨by simp [isUnknownCapability, hcmd], Or.inl hcmd⟩
  | true =>
    have hem : e ∈ R.engines := by simpa using he
    cases hf : R.formats.contains f with
    | false =>
      have hfm : f ∉ R.formats := by simpa using hf
      have hcmd : command R e f rd ft =
          Except.error (Err.valueError ("unknown format: " ++ f)) := by
        simp [command, hnot, hem, hfm]
      exact ⟨by simp [isUnknownCapability, hcmd], Or.inr (Or.inl hcmd)⟩
    | true =>
      have hfm : f ∈ R.formats := by simpa using hf
      cases hkr : knownOpt R.renderers rd with
      | false =>
        cases rd with
        | none => simp [knownOpt] at hkr
        | some r =>
          have hrm : r ∉ R.renderers := by simpa [knownOpt] using hkr
          have hcmd : command R e f (Option.some r) ft =
              Except.error (Err.valueError ("unknown renderer: " ++ r)) := by
            simp [command, knownOpt, hnot, hem, hfm, hrm]
          exact ⟨by simp [isUnknownCapability, hcmd],
            Or.inr (Or.inr (Or.inl ⟨r, rfl, hcmd⟩))⟩
      | true =>
        cases hkf : knownOpt R.formatters ft with
        | false =>
          cases ft with
          | none => simp [knownOpt] at hkf
          | some g =>
            have hgm : g ∉ R.formatters := by simpa [knownOpt] using hkf
            cases rd with
            | none => simp at hnot
            | some r =>
              have hrm : r ∈ R.renderers := by simpa [knownOpt] using hkr
              have hcmd : command R e f (Option.some r) (Option.some g) =
                  Except.error (Err.valueError ("unknown formatter: " ++ g)) := by
                simp [command, knownOpt, hem, hfm, hrm, hgm]
              exact ⟨by simp [isUnknownCapability, hcmd],
                Or.inr (Or.inr (Or.inr ⟨g, rfl, hcmd⟩))⟩
        | true =>
          exfalso
          rcases hbad with h | h | ⟨r, hrd, h⟩ | ⟨g, hft, h⟩
          · rw [he] at h; exact Bool.noConfusion h
          · rw [hf] at h; exact Bool.noConfusion h
          · subst hrd
            have hrc : R.renderers.contains r = true := by
              simpa [knownOpt] using hkr
            rw [hrc] at h; exact Bool.noConfusion h
          · subst hft
            have hgc : R.formatters.contains g = true := by
              simpa [knownOpt] using hkf
            rw [hgc] at h; exact Bool.noConfusion h

/-- Witness for the amended C2 at registry `R0` and unknown engine "bogus". -/
theorem C2_unknown_capability_witness :
    ((Option.none : Option String).isSome &&
      (Option.none : Option String).isNone) = false ∧
    R0.engines.contains "bogus" = false ∧
    isUnknownCapability (command R0 "bogus" "svg" Option.none Option.none) = true :=
  ⟨rfl, rfl,
    (C2_unknown_capability R0 "bogus" "svg" Option.none Option.none rfl
      (Or.inl rfl)).1⟩

/-- Claim C6: for every successful `render`, the returned output path is
the bare input filename followed by '.' and the dot-joined output-format
suffix, re-joined with the input's directory component when that component
is non-empty; the path is a function of the inputs only, never of the
runner's captured output. -/
theorem C6_output_path (runner : Runner) (R : Registry) (e f : String)
    (fp : String) (rd ft : Option String) (q : Bool) (p : String)
    (hr : (render runner R e f fp rd ft q).fst = Except.ok p) :
    p = (if (posixSplit fp).fst ≠ "" then
           posixJoin (posixSplit fp).fst ((posixSplit fp).snd ++ "." ++
             String.intercalate "." ([ft, rd, Option.some f].filterMap id))
         else (posixSplit fp).snd ++ "." ++
           String.intercalate "." ([ft, rd, Option.some f].filterMap id)) :=
  render_ok_path runner R e f fp rd ft q p hr

/-- Witness for C6: filepath "a/b/graph.gv" with engine "dot", format "svg"
renders to "a/b/graph.gv.svg". -/
theorem C6_output_path_witness :
    (render okRunner R0 "dot" "svg" "a/b/graph.gv" Option.none Option.none
        false).fst = Except.ok "a/b/graph.gv.svg" ∧
    "a/b/graph.gv.svg" =
      (if (posixSplit "a/b/graph.gv").fst ≠ "" then
         posixJoin (posixSplit "a/b/graph.gv").fst
           ((posixSplit "a/b/graph.gv").snd ++ "." ++
             String.intercalate "." ([Option.none, Option.none,
               Option.some "svg"].filterMap id))
       else (posixSplit "a/b/graph.gv").snd ++ "." ++
         String.intercalate "." ([Option.none, Option.none,
           Option.some "svg"].filterMap id)) :=
  ⟨rfl, C6_output_path okRunner R0 "dot" "svg" "a/b/graph.gv" Option.none
    Option.none false "a/b/graph.gv.svg" rfl⟩

/-- Claim C7: every runner call made by `render` carries the three-element
invocation from `command` extended with exactly `["-O", filename]`, the
working directory set to the input's directory component (none when that
component is empty), no stdin payload, and output capture on. -/
theorem C7_runner_call (R : Registry) (e f : String) (rd ft : Option String)
    (runner : Runner) (fp : String) (q : Bool) (cmd0 : List String)
    (call : RunCall) (hc : command R e f rd ft = Except.ok cmd0)
    (hmem : call ∈ (render runner R e f fp rd ft q).snd) :
    call.cmd = cmd0 ++ ["-O", (posixSplit fp).snd] ∧
    call.cwd = (if (posixSplit fp).fst ≠ "" then Option.some (posixSplit fp).fst
                else Option.none) ∧
    call.input = Payload.none ∧ call.capture_output = true ∧ call.quiet = q := by
  simp only [render, hc] at hmem
  split at hmem <;>
  · rw [List.mem_singleton] at hmem
    subst hmem
    exact ⟨rfl, rfl, rfl, rfl, rfl⟩

/-- Witness for C7 at filepath "a/b/graph.gv": the single runner call is
`dot -Kdot -Tsvg -O graph.gv` from working directory "a/b" with no stdin. -/
theorem C7_runner_call_witness :
    command R0 "dot" "svg" Option.none Option.none =
      Except.ok ["dot", "-Kdot", "-Tsvg"] ∧
    (⟨["dot", "-Kdot", "-Tsvg", "-O", "graph.gv"], true, Option.some "a/b",
        false, Payload.none⟩ : RunCall) ∈
      (render okRunner R0 "dot" "svg" "a/b/graph.gv" Option.none Option.none
        false).snd ∧
    (⟨["dot", "-Kdot", "-Tsvg", "-O", "graph.gv"], true, Option.some "a/b",
        false, Payload.none⟩ : RunCall).cmd =
      ["dot", "-Kdot", "-Tsvg"] ++ ["-O", (posixSplit "a/b/graph.gv").snd] ∧
    (⟨["dot", "-Kdot", "-Tsvg", "-O", "graph.gv"], true, Option.some "a/b",
        false, Payload.none⟩ : RunCall).cwd =
      (if (posixSplit "a/b/graph.gv").fst ≠ "" then
        Option.some (posixSplit "a/b/graph.gv").fst else Option.none) ∧
    (⟨["dot", "-Kdot", "-Tsvg", "-O", "graph.gv"], true, Option.some "a/b",
        false, Payload.none⟩ : RunCall).input = Payload.none :=
  ⟨rfl, List.mem_singleton.mpr rfl,
    (C7_runner_call R0 "dot" "svg" Option.none Option.none okRunner
      "a/b/graph.gv" false ["dot", "-Kdot", "-Tsvg"]
      ⟨["dot", "-Kdot", "-Tsvg", "-O", "graph.gv"], true, Option.some "a/b",
        false, Payload.none⟩ rfl (List.mem_singleton.mpr rfl)).1,
    (C7_runner_call R0 "dot" "svg" Option.none Option.none okRunner
      "a/b/graph.gv" false ["dot", "-Kdot", "-Tsvg"]
      ⟨["dot", "-Kdot", "-Tsvg", "-O", "graph.gv"], true, Option.some "a/b",
        false, Payload.none⟩ rfl (List.mem_singleton.mpr rfl)).2.1,
    (C7_runner_call R0 "dot" "svg" Option.none Option.none okRunner
      "a/b/graph.gv" false ["dot", "-Kdot", "-Tsvg"]
      ⟨["dot", "-Kdot", "-Tsvg", "-O", "graph.gv"], true, Option.some "a/b",
        false, Payload.none⟩ rfl (List.mem_singleton.mpr rfl)).2.2.1⟩

/-- Claim C8: whenever argument validation fails, each of the five
orchestrator operations raises that validation error unchanged and the
runner is never invoked (the call trace is empty). -/
theorem C8_validation_before_spawn (R : Registry) (e f : String)
    (rd ft : Option String) (err : Err) (runner : Runner)
    (encode : String → String → List Nat) (fp : String) (data : List Nat)
    (s ienc enc : String) (lines : List String) (q : Bool)
    (hc : command R e f rd ft = Except.error err) :
    render runner R e f fp rd ft q = (Except.error err, []) ∧
    pipe runner R e f data rd ft q = (Except.error err, []) ∧
    pipe_string runner R e f s enc rd ft q = (Except.error err, []) ∧
    pipe_lines runner encode R e f lines ienc rd ft q = (Except.error err, []) ∧
    pipe_lines_string runner R e f lines enc rd ft q = (Except.error err, []) := by
  refine ⟨?_, ?_, ?_, ?_, ?_⟩ <;>
    simp [render, pipe, pipe_string, pipe_lines, pipe_lines_string, hc]

/-- Witness for C8 at unknown engine "bogus": all five operations return the
unknown-engine error with an empty call trace. -/
theorem C8_validation_before_spawn_witness :
    command R0 "bogus" "svg" Option.none Option.none =
      Except.error (Err.valueError ("unknown engine: " ++ "bogus")) ∧
    render okRunner R0 "bogus" "svg" "g" Option.none Option.none false =
      (Except.error (Err.valueError ("unknown engine: " ++ "bogus")), []) ∧
    pipe okRunner R0 "bogus" "svg" [1] Option.none Option.none false =
      (Except.error (Err.valueError ("unknown engine: " ++ "bogus")), []) ∧
    pipe_string okRunner R0 "bogus" "svg" "graph" "ascii" Option.none
        Option.none false =
      (Except.error (Err.valueError ("unknown engine: " ++ "bogus")), []) ∧
    pipe_lines okRunner (fun _ _ => []) R0 "bogus" "svg" ["graph"] "ascii"
        Option.none Option.none false =
      (Except.error (Err.valueError ("unknown engine: " ++ "bogus")), []) ∧
    pipe_lines_string okRunner R0 "bogus" "svg" ["graph"] "ascii" Option.none
        Option.none false =
      (Except.error (Err.valueError ("unknown engine: " ++ "bogus")), []) := by
  have h := C8_validation_before_spawn R0 "bogus" "svg" Option.none Option.none
    (Err.valueError ("unknown engine: " ++ "bogus")) okRunner (fun _ _ => [])
    "g" [1] "graph" "ascii" "ascii" ["graph"] false rfl
  exact ⟨rfl, h.1, h.2.1, h.2.2.1, h.2.2.2.1, h.2.2.2.2⟩

/-- Claim C9: two runs of any of the five operations that differ only in
the quiet flag build the same invocation, hand the same payload and working
directory to the runner, and produce the same outcome, provided the runner's
result does not depend on the quiet flag (which only controls diagnostic
echoing); quiet is merely forwarded inside the recorded call. -/
theorem C9_quiet_only_forwarded (R : Registry) (e f : String)
    (rd ft : Option String) (runner : Runner)
    (hq : ∀ cm co cw q1 q2 inp,
      runner ⟨cm, co, cw, q1, inp⟩ = runner ⟨cm, co, cw, q2, inp⟩)
    (encode : String → String → List Nat) (fp : String) (data : List Nat)
    (s ienc enc : String) (lines : List String) (q1 q2 : Bool) :
    Prod.map id (List.map RunCall.eraseQuiet)
        (render runner R e f fp rd ft q1) =
      Prod.map id (List.map RunCall.eraseQuiet)
        (render runner R e f fp rd ft q2) ∧
    Prod.map id (List.map RunCall.eraseQuiet)
        (pipe runner R e f data rd ft q1) =
      Prod.map id (List.map RunCall.eraseQuiet)
        (pipe runner R e f data rd ft q2) ∧
    Prod.map id (List.map RunCall.eraseQuiet)
        (pipe_string runner R e f s enc rd ft q1) =
      Prod.map id (List.map RunCall.eraseQuiet)
        (pipe_string runner R e f s enc rd ft q2) ∧
    Prod.map id (List.map RunCall.eraseQuiet)
        (pipe_lines runner encode R e f lines ienc rd ft q1) =
      Prod.map id (List.map RunCall.eraseQuiet)
        (pipe_lines runner encode R e f lines ienc rd ft q2) ∧
    Prod.map id (List.map RunCall.eraseQuiet)
        (pipe_lines_string runner R e f lines enc rd ft q1) =
      Prod.map id (List.map RunCall.eraseQuiet)
        (pipe_lines_string runner R e f lines enc rd ft q2) := by
  cases hc : command R e f rd ft with
  | error err =>
    refine ⟨?_, ?_, ?_, ?_, ?_⟩ <;>
      simp [render, pipe, pipe_string, pipe_lines, pipe_lines_string, hc]
  | ok cmd0 =>
    refine ⟨?_, ?_, ?_, ?_, ?_⟩
    · simp only [render, hc]
      rw [hq (cmd0 ++ ["-O", (posixSplit fp).snd]) true
        (if (posixSplit fp).fst ≠ "" then Option.some (posixSplit fp).fst
         else Option.none) q1 q2 Payload.none]
      cases runner ⟨cmd0 ++ ["-O", (posixSplit fp).snd], true,
        (if (posixSplit fp).fst ≠ "" then Option.some (posixSplit fp).fst
         else Option.none), q2, Payload.none⟩ <;> rfl
    · simp only [pipe, hc]
      rw [hq cmd0 true Option.none q1 q2 (Payload.bytes data)]
      cases runner ⟨cmd0, true, Option.none, q2, Payload.bytes data⟩ <;> rfl
    · simp only [pipe_string, hc]
      rw [hq cmd0 true Option.none q1 q2 (Payload.str s enc)]
      cases runner ⟨cmd0, true, Option.none, q2, Payload.str s enc⟩ <;> rfl
    · simp only [pipe_lines, hc]
      rw [hq cmd0 true Option.none q1 q2
        (Payload.byteLines (lines.map (encode ienc)))]
      cases runner ⟨cmd0, true, Option.none, q2,
        Payload.byteLines (lines.map (encode ienc))⟩ <;> rfl
    · simp only [pipe_lines_string, hc]
      rw [hq cmd0 true Option.none q1 q2 (Payload.strLines lines enc)]
      cases runner ⟨cmd0, true, Option.none, q2,
        Payload.strLines lines enc⟩ <;> rfl

/-- Witness for C9: with the quiet-insensitive `okRunner`, `render` under
quiet = true and quiet = false agrees up to the forwarded quiet flag. -/
theorem C9_quiet_only_forwarded_witness :
    Prod.map id (List.map RunCall.eraseQuiet)
        (render okRunner R0 "dot" "svg" "a/b/graph.gv" Option.none Option.none
          true) =
      Prod.map id (List.map RunCall.eraseQuiet)
        (render okRunner R0 "dot" "svg" "a/b/graph.gv" Option.none Option.none
          false) :=
  (C9_quiet_only_forwarded R0 "dot" "svg" Option.none Option.none okRunner
    (fun _ _ _ _ _ _ => rfl) (fun _ _ => []) "a/b/graph.gv" [] "s" "ascii"
    "ascii" ["graph"] true false).1

/-- Claim C10: when argument validation fails, `pipe_lines` and
`pipe_lines_string` raise the validation error with an empty call trace and
their outcome is independent of the line sequence: the lines are never
consumed or encoded. -/
theorem C10_lines_not_consumed (R : Registry) (e f : String)
    (rd ft : Option String) (err : Err) (runner : Runner)
    (encode : String → String → List Nat) (ienc enc : String) (q : Bool)
    (lines1 lines2 : List String)
    (hc : command R e f rd ft = Except.error err) :
    pipe_lines runner encode R e f lines1 ienc rd ft q = (Except.error err, []) ∧
    pipe_lines runner encode R e f lines2 ienc rd ft q =
      pipe_lines runner encode R e f lines1 ienc rd ft q ∧
    pipe_lines_string runner R e f lines1 enc rd ft q = (Except.error err, []) ∧
    pipe_lines_string runner R e f lines2 enc rd ft q =
      pipe_lines_string runner R e f lines1 enc rd ft q := by
  refine ⟨?_, ?_, ?_, ?_⟩ <;> simp [pipe_lines, pipe_lines_string, hc]

/-- Witness for C10 at engine "bogus" with two different line sequences. -/
theorem C10_lines_not_consumed_witness :
    command R0 "bogus" "svg" Option.none Option.none =
      Except.error (Err.valueError ("unknown engine: " ++ "bogus")) ∧
    pipe_lines okRunner (fun _ _ => []) R0 "bogus" "svg" ["a"] "ascii"
        Option.none Option.none false =
      (Except.error (Err.valueError ("unknown engine: " ++ "bogus")), []) ∧
    pipe_lines okRunner (fun _ _ => []) R0 "bogus" "svg" ["b", "c"] "ascii"
        Option.none Option.none false =
      pipe_lines okRunner (fun _ _ => []) R0 "bogus" "svg" ["a"] "ascii"
        Option.none Option.none false ∧
    pipe_lines_string okRunner R0 "bogus" "svg" ["a"] "ascii" Option.none
        Option.none false =
      (Except.error (Err.valueError ("unknown engine: " ++ "bogus")), []) ∧
    pipe_lines_string okRunner R0 "bogus" "svg" ["b", "c"] "ascii" Option.none
        Option.none false =
      pipe_lines_string okRunner R0 "bogus" "svg" ["a"] "ascii" Option.none
        Option.none false := by
  have h := C10_lines_not_consumed R0 "bogus" "svg" Option.none Option.none
    (Err.valueError ("unknown engine: " ++ "bogus")) okRunner (fun _ _ => [])
    "ascii" "ascii" false ["a"] ["b", "c"] rfl
  exact ⟨rfl, h.1, h.2.1, h.2.2.1, h.2.2.2⟩

end GraphvizRendering
